import Mathlib

/-!
# Verification of `sim_pipeline/image_simulation.py`

A shallow embedding of the image-simulation module of the `slsim` pipeline.
The module orchestrates calls into external collaborators (the lenstronomy
rendering engine, the astropy table/units library, the variability-function
library); those collaborators are modelled as abstract function parameters or
by their documented call contracts, while every computation performed by the
module itself (magnitude-to-amplitude conversion, time-unit normalization,
the transpose/reshape bookkeeping of the variability loop, the table
assembly, the fixed numerics configurations) is translated directly from the
source.

Real numbers stand in for Python floats throughout.
-/

namespace ImageSimulation

/-! ## Magnitude-to-amplitude conversion

Both conversion sites in the source (`point_source_image_properties`
lines 198-202 and the variability path of `point_source_image`
lines 299-304) compute `delta_m = mag - mag_zero_point` and
`counts = 10 ** (-delta_m / 2.5)`. -/

/-- `counts = 10 ** (-delta_m / 2.5)` with `delta_m = mag - mag_zero_point`,
exactly as computed at both conversion sites of the source. -/
noncomputable def counts_of (mag mag_zero_point : ℝ) : ℝ :=
  let delta_m := mag - mag_zero_point
  (10 : ℝ) ^ (-delta_m / 2.5)

/-- The per-image amplitude loop of `point_source_image_properties`
(lines 198-202): one `counts` entry per entry of `image_magnitude`. -/
noncomputable def image_amplitude_of (image_magnitude : List ℝ)
    (mag_zero_point : ℝ) : List ℝ :=
  image_magnitude.map (fun m => counts_of m mag_zero_point)

/-! ## External collaborator contracts -/

/-- The lens-system descriptor (external, `GalaxyGalaxyLens`-like object).
We fix one band throughout a call, so the per-band accessors lose their band
argument.  `image_observer_times t` returns the per-image observer-frame
times for source-frame time `t` (one entry per lensed image). -/
structure LensClass where
  lens_position : ℝ × ℝ
  image_positions_ra : List ℝ
  image_positions_dec : List ℝ
  point_source_magnitude : List ℝ
  image_observer_times : ℝ → List ℝ

/-- The coordinate maps of the lenstronomy `sim_api.data_class` (external):
sky coordinate to pixel coordinate and back. -/
structure DataClass where
  map_coord2pix : ℝ → ℝ → ℝ × ℝ
  map_pix2coord : ℝ → ℝ → ℝ × ℝ

/-! ## The astropy `Table` contract

`point_source_image_properties` hands astropy a list of columns; astropy's
`Table` constructor accepts it iff all columns have one common length (the
row count) and raises "inconsistent data column lengths" otherwise.  Cells
are scalars or coordinate pairs. -/

/-- A table cell: a scalar or a coordinate pair. -/
inductive Cell where
  | num (x : ℝ)
  | pair (x y : ℝ)

/-- An astropy table: column names plus columns of cells. -/
structure Table where
  names : List String
  cols : List (List Cell)

/-- Row count of a table: the common length of its columns. -/
def Table.nrows (t : Table) : Nat := (t.cols.headD []).length

/-- Modelled astropy `Table` constructor contract: construction succeeds iff
every column has the same length, and that length is the row count. -/
def mkTable (cols : List (List Cell)) (names : List String) :
    Except String Table :=
  if cols.all (fun c => c.length = (cols.headD []).length) then
    .ok ⟨names, cols⟩
  else
    .error "Inconsistent data column lengths"

/-! ## `point_source_image_properties` (lines 155-223) -/

/-- The intermediate values computed by `point_source_image_properties`
before the table is assembled (lines 184-202). -/
structure PSProps where
  lens_pix_coordinate : ℝ × ℝ
  image_pix_coordinate : List (ℝ × ℝ)
  ra_image_values : List ℝ
  dec_image_values : List ℝ
  image_amplitude : List ℝ
  image_magnitude : List ℝ
  radec_at_xy_0 : ℝ × ℝ

/-- Lines 184-202 of `point_source_image_properties`: deflector pixel
coordinate, per-image pixel coordinates, per-image amplitudes from the
magnitude conversion, and the sky coordinate of pixel (0,0). -/
noncomputable def psProps (data : DataClass) (lens : LensClass)
    (mag_zero_point : ℝ) : PSProps :=
  let lens_center := lens.lens_position
  let lens_pix_coordinate := data.map_coord2pix lens_center.1 lens_center.2
  let ra_image_values := lens.image_positions_ra
  let dec_image_values := lens.image_positions_dec
  let image_magnitude := lens.point_source_magnitude
  let image_pix_coordinate :=
    (ra_image_values.zip dec_image_values).map
      (fun p => data.map_coord2pix p.1 p.2)
  let radec_at_xy_0 := data.map_pix2coord 0 0
  { lens_pix_coordinate := lens_pix_coordinate
    image_pix_coordinate := image_pix_coordinate
    ra_image_values := ra_image_values
    dec_image_values := dec_image_values
    image_amplitude := image_amplitude_of image_magnitude mag_zero_point
    image_magnitude := image_magnitude
    radec_at_xy_0 := radec_at_xy_0 }

/-- The column list handed to the astropy `Table` constructor
(lines 204-212): the two components of `lens_pix_coordinate` form one
column, each per-image list forms one column, and the two components of
`radec_at_xy_0` form one column. -/
noncomputable def psPropsColumns (p : PSProps) : List (List Cell) :=
  [ [.num p.lens_pix_coordinate.1, .num p.lens_pix_coordinate.2],
    p.image_pix_coordinate.map (fun q => .pair q.1 q.2),
    p.ra_image_values.map .num,
    p.dec_image_values.map .num,
    p.image_amplitude.map .num,
    p.image_magnitude.map .num,
    [.num p.radec_at_xy_0.1, .num p.radec_at_xy_0.2] ]

/-- The column names of lines 213-221. -/
def psPropsNames : List String :=
  ["deflector_pix", "image_pix", "ra_image", "dec_image",
   "image_amplitude", "image_magnitude", "radec_at_xy_0"]

/-- `point_source_image_properties` (lines 155-223): compute the properties
and assemble them into an astropy table. -/
noncomputable def point_source_image_properties (data : DataClass)
    (lens : LensClass) (mag_zero_point : ℝ) : Except String Table :=
  mkTable (psPropsColumns (psProps data lens mag_zero_point)) psPropsNames

/-! ## Time units and the normalization branch (lines 275-280)

The observation-time sequence carries an astropy unit.  `Quantity.to(u.day)`
is astropy's unit conversion: it rescales the values by the fixed
day/minute/second ratios. -/

/-- The time units relevant to the branch: astropy `u.day`, `u.minute`,
`u.second`. -/
inductive TimeUnit where
  | day
  | minute
  | second
deriving DecidableEq

/-- Modelled astropy contract: the factor `Quantity.to(u.day)` multiplies a
value of the given unit by. -/
noncomputable def TimeUnit.toDayFactor : TimeUnit → ℝ
  | .day => 1
  | .minute => 1 / 1440
  | .second => 1 / 86400

/-- A unit-tagged observation-time sequence (astropy `Quantity`). -/
structure TimeQuantity where
  value : List ℝ
  unit : TimeUnit

/-- `Quantity.to(u.day)` on a sequence. -/
noncomputable def TimeQuantity.toDay (q : TimeQuantity) : List ℝ :=
  q.value.map (fun v => v * q.unit.toDayFactor)

/-- Lines 275-280 of `point_source_image`: if the unit is `day` keep the
sequence, otherwise convert it to days; then, if the unit is `minute`,
(re-)convert the original sequence to days. The result is the day-valued
sequence the rest of the variability path works with. -/
noncomputable def normalize_time (q : TimeQuantity) : List ℝ :=
  let time := if q.unit = TimeUnit.day then q.value else q.toDay
  if q.unit = TimeUnit.minute then q.toDay else time

/-! ## `point_source_image` (lines 225-316) -/

/-- The pixel grid built on lines 251-254: `nx = ny = num_pix`, diagonal
pixel-to-angle transform `[[delta_pix, 0], [0, delta_pix]]`, anchored at the
sky coordinate of pixel (0,0) from the properties table. -/
structure PixelGridSpec where
  nx : ℕ
  ny : ℕ
  transform_pix2angle : (ℝ × ℝ) × (ℝ × ℝ)
  ra_at_xy_0 : ℝ
  dec_at_xy_0 : ℝ

/-- The `PixelGrid(...)` call of lines 251-254, as a function of the
`radec_at_xy_0` anchor, the pixel scale and the pixel count. -/
def gridOf (radec_at_xy_0 : ℝ × ℝ) (delta_pix : ℝ) (num_pix : ℕ) :
    PixelGridSpec :=
  { nx := num_pix, ny := num_pix
    transform_pix2angle := ((delta_pix, 0), (0, delta_pix))
    ra_at_xy_0 := radec_at_xy_0.1
    dec_at_xy_0 := radec_at_xy_0.2 }

/-- A lenstronomy `PSF` object as built on line 262:
`PSF(psf_type="PIXEL", kernel_point_source=kernel)`. -/
structure PSFSpec (K : Type) where
  psf_type : String
  kernel_point_source : K

instance {K : Type} [Inhabited K] : Inhabited (PSFSpec K) :=
  ⟨⟨"PIXEL", default⟩⟩

/-- The variability specification dictionary: unit-tagged times, a model
name, and (abstracted) model parameters.  The variability function obtained
from `Variability(**kwargs).sinusoidal_variability` is external to this file
and is passed to `point_source_image` as the abstract `sinusoidal` argument. -/
structure VarSpec where
  time : TimeQuantity
  variability_model : String

/-- `np.array(l).T.tolist()` for the rectangular list-of-rows `l`
(line 291): entry `(i, j)` of the result is entry `(j, i)` of `l`.  The
number of columns is read off the first row, as numpy does from the shape. -/
def npTranspose (l : List (List ℝ)) : List (List ℝ) :=
  (List.range (l.headD []).length).map (fun i => l.map (fun row => row.getD i 0))

/-- Lines 292-297: `variable_mag[i][j] = magnitude[i] + f(T[i][j])`, built
as a flat list over `(i, j)` and reshaped to `(len magnitude, len time)` —
the reshape of the flat row-major list is exactly this nested list. -/
noncomputable def variable_mag_of (magnitude : List ℝ) (f : ℝ → ℝ)
    (T : List (List ℝ)) (nT : ℕ) : List (List ℝ) :=
  (List.range magnitude.length).map (fun i =>
    (List.range nT).map (fun j => magnitude.getD i 0 + f ((T.getD i []).getD j 0)))

/-- Lines 298-304: `variable_amp[i][j] = 10 ** (-(variable_mag[i][j] - zp)/2.5)`,
again built flat over `(i, j)` and reshaped to the same nested shape. -/
noncomputable def variable_amp_of (variable_mag : List (List ℝ))
    (mag_zero_point : ℝ) : List (List ℝ) :=
  variable_mag.map (fun row => row.map (fun m => counts_of m mag_zero_point))

/-- The output of `point_source_image`: a stamp per image without
variability, a stamp per (image, epoch) with variability. -/
inductive PSOut (Stamp : Type) where
  | flat (images : List Stamp)
  | nested (images : List (List Stamp))

/-- The error message of lines 286-287. -/
def unsupportedModelMsg : String :=
  "given model is not supported. Currently,supported model is sinusoudal."

/-- `point_source_image` (lines 225-316).

External collaborators appear as arguments: `render grid s psf ras decs amps`
stands for `PointSourceRendering(pixel_grid=grid, supersampling_factor=s,
psf=psf).point_source_rendering(ras, decs, amps)`, and `sinusoidal` for the
function `Variability(**kwargs_variability).sinusoidal_variability`.

The function first builds the properties table (propagating its error), the
pixel grid and the per-kernel `PSF` objects; without a variability spec it
renders one stamp per PSF at that image's amplitude; with one it normalizes
the times, rejects any model name other than `"sinusoidal"`, computes the
transposed observer times, the variable magnitudes and amplitudes, and
renders one stamp per (image, epoch). -/
noncomputable def point_source_image {Stamp K : Type} [Inhabited K]
    (data : DataClass) (lens : LensClass) (mag_zero_point delta_pix : ℝ)
    (num_pix : ℕ) (psf_kernels : List K)
    (render : PixelGridSpec → ℕ → PSFSpec K → List ℝ → List ℝ → List ℝ → Stamp)
    (sinusoidal : ℝ → ℝ) (variability : Option VarSpec) :
    Except String (PSOut Stamp) :=
  match point_source_image_properties data lens mag_zero_point with
  | .error e => .error e
  | .ok _ =>
    let props := psProps data lens mag_zero_point
    let grid := gridOf props.radec_at_xy_0 delta_pix num_pix
    let ra_image_values := props.ra_image_values
    let dec_image_values := props.dec_image_values
    let amp := props.image_amplitude
    let magnitude := lens.point_source_magnitude
    let psf_class : List (PSFSpec K) :=
      psf_kernels.map (fun k => ⟨"PIXEL", k⟩)
    match variability with
    | none =>
      .ok (.flat ((List.range psf_class.length).map (fun i =>
        render grid 1 (psf_class.getD i default)
          [ra_image_values.getD i 0] [dec_image_values.getD i 0]
          [amp.getD i 0])))
    | some v =>
      let time := normalize_time v.time
      if v.variability_model = "sinusoidal" then
        let observed_time := time.map lens.image_observer_times
        let transformed_observed_time := npTranspose observed_time
        let variable_mag :=
          variable_mag_of magnitude sinusoidal transformed_observed_time
            time.length
        let variable_amp := variable_amp_of variable_mag mag_zero_point
        .ok (.nested ((List.range psf_class.length).map (fun i =>
          (List.range time.length).map (fun j =>
            render grid 1 (psf_class.getD i default)
              [ra_image_values.getD i 0] [dec_image_values.getD i 0]
              [(variable_amp.getD i []).getD j 0]))))
      else
        .error unsupportedModelMsg

/-- The image list of a successful non-variability call (`[]` otherwise). -/
def PSOut.flatOf {Stamp : Type} : Except String (PSOut Stamp) → List Stamp
  | .ok (.flat l) => l
  | _ => []

/-- The nested image list of a successful variability call (`[]` otherwise). -/
def PSOut.nestedOf {Stamp : Type} :
    Except String (PSOut Stamp) → List (List Stamp)
  | .ok (.nested l) => l
  | _ => []

/-! ## Concrete instances used to instantiate the theorems -/

/-- A concrete coordinate map: identity-like sky-to-pixel transforms. -/
noncomputable def dataId : DataClass :=
  ⟨fun a b => (a, b), fun a b => (a, b)⟩

/-- A concrete lens system with two lensed images and zero time delay. -/
noncomputable def lensTwo : LensClass :=
  ⟨(0, 0), [0, 0], [0, 0], [19, 21], fun t => [t, t]⟩

/-- A concrete lens system with three lensed images. -/
noncomputable def lensThree : LensClass :=
  ⟨(0, 0), [0, 0, 0], [0, 0, 0], [19, 20, 21], fun t => [t, t, t]⟩

/-! ## `simulate_image` (lines 11-57)

The SimAPI construction, the parameter lookup and `magnitude2amplitude`
are external; what the module itself fixes is the numerics configuration
and the noise branch.  `image_model cfg` stands for
`sim_api.image_model_class(cfg).image(...)` at the converted parameters,
and `noise_for_model` for `sim_api.noise_for_model`. -/

/-- The `kwargs_numerics` dictionary of lines 43-46. -/
structure KwargsNumericsFull where
  point_source_supersampling_factor : ℕ
  supersampling_factor : ℕ

/-- `simulate_image` (lines 11-57): render with the fixed numerics
configuration, then add a noise realization drawn for the rendered image
iff `add_noise`. -/
def simulate_image {Img : Type} [Add Img]
    (image_model : KwargsNumericsFull → Img)
    (noise_for_model : Img → Img) (add_noise : Bool) : Img :=
  let kwargs_numerics : KwargsNumericsFull :=
    { point_source_supersampling_factor := 1, supersampling_factor := 3 }
  let image := image_model kwargs_numerics
  if add_noise then image + noise_for_model image else image

/-! ## `sharp_image` (lines 60-105) and the RGB builders (lines 108-152) -/

/-- The `kwargs_band` dictionary of lines 74-82 (and 168-176). -/
structure KwargsBand where
  pixel_scale : ℝ
  magnitude_zero_point : ℝ
  background_noise : ℝ
  psf_type : String
  exposure_time : ℝ

/-- The `kwargs_numerics` dictionary of line 92: only the supersampling
factor. -/
structure SharpNumerics where
  supersampling_factor : ℕ

/-- The keyword flags of the `image_model.image(...)` call on lines 95-104. -/
structure RenderRequest where
  unconvolved : Bool
  source_add : Bool
  lens_light_add : Bool
  point_source_add : Bool

/-- The band configuration built by `sharp_image` (lines 74-82):
placeholder noise/PSF/exposure values that only satisfy SimAPI's
required-field contract. -/
noncomputable def sharp_kwargs_band (delta_pix mag_zero_point : ℝ) :
    KwargsBand :=
  { pixel_scale := delta_pix
    magnitude_zero_point := mag_zero_point
    background_noise := 0
    psf_type := "NONE"
    exposure_time := 1 }

/-- `sharp_image` (lines 60-105).  `image_model band kb cfg req` stands for
the external render of the lens in `band` under band configuration `kb`,
numerics `cfg` and request flags `req`; the lens object and `num_pix` are
folded into `image_model`.  The call always requests an unconvolved render
with supersampling factor 1, always adds source light, adds deflector light
iff `with_deflector`, and never adds point sources. -/
noncomputable def sharp_image {Img : Type}
    (image_model : String → KwargsBand → SharpNumerics → RenderRequest → Img)
    (band : String) (mag_zero_point delta_pix : ℝ)
    (with_deflector : Bool) : Img :=
  image_model band (sharp_kwargs_band delta_pix mag_zero_point)
    { supersampling_factor := 1 }
    { unconvolved := true
      source_add := true
      lens_light_add := with_deflector
      point_source_add := false }

/-- `sharp_rgb_image` (lines 108-140): render the first three bands of
`rgb_band_list` sharp (deflector light included, the default) and combine
them with `make_lupton_rgb` at stretch 0.5. -/
noncomputable def sharp_rgb_image {Img RGB : Type}
    (image_model : String → KwargsBand → SharpNumerics → RenderRequest → Img)
    (make_lupton_rgb : Img → Img → Img → ℝ → RGB)
    (rgb_band_list : List String) (mag_zero_point delta_pix : ℝ) : RGB :=
  let image_r := sharp_image image_model (rgb_band_list.getD 0 "")
    mag_zero_point delta_pix true
  let image_g := sharp_image image_model (rgb_band_list.getD 1 "")
    mag_zero_point delta_pix true
  let image_b := sharp_image image_model (rgb_band_list.getD 2 "")
    mag_zero_point delta_pix true
  make_lupton_rgb image_r image_g image_b 0.5

/-- `rgb_image_from_image_list` (lines 143-152): combine three
already-rendered images with `make_lupton_rgb` at the given stretch. -/
def rgb_image_from_image_list {Img RGB : Type} [Inhabited Img]
    (make_lupton_rgb : Img → Img → Img → ℝ → RGB)
    (image_list : List Img) (stretch : ℝ) : RGB :=
  make_lupton_rgb (image_list.getD 0 default) (image_list.getD 1 default)
    (image_list.getD 2 default) stretch

end ImageSimulation

namespace ImageSimulation

/-! ## First claim: the conversion formula, positivity, monotonicity -/

/-- **C1.** For every finite magnitude and zero-point, the amplitude computed
per image in `point_source_image_properties` equals
`10 ^ (-(mag - zp) / 2.5)`; this amplitude is strictly positive and strictly
decreasing in the magnitude for a fixed zero-point. (The per-(image, epoch)
conversion of `point_source_image` is the same `counts_of`; see `C2`.) -/
theorem C1_magnitude_to_amplitude (data : DataClass) (lens : LensClass)
    (zp m₁ m₂ : ℝ) (i : ℕ) (hi : i < lens.point_source_magnitude.length)
    (h₁₂ : m₁ < m₂) :
    (psProps data lens zp).image_amplitude.getD i 0 =
      (10 : ℝ) ^ (-(lens.point_source_magnitude.getD i 0 - zp) / 2.5) ∧
    0 < counts_of m₁ zp ∧
    counts_of m₂ zp < counts_of m₁ zp := by
  refine ⟨?_, ?_, ?_⟩
  · have hmap : (psProps data lens zp).image_amplitude =
        lens.point_source_magnitude.map (fun m => counts_of m zp) := rfl
    rw [hmap, List.getD_eq_getElem?_getD, List.getElem?_map,
      List.getElem?_eq_getElem hi]
    simp [counts_of, List.getD_eq_getElem?_getD,
      List.getElem?_eq_getElem hi]
  · exact Real.rpow_pos_of_pos (by norm_num) _
  · apply Real.rpow_lt_rpow_of_exponent_lt (by norm_num : (1:ℝ) < 10)
    have h25 : (0:ℝ) < 2.5 := by norm_num
    rw [div_lt_div_iff_of_pos_right h25]
    linarith

theorem C1_magnitude_to_amplitude_witness :
    ((psProps dataId lensTwo 27).image_amplitude.getD 0 0 =
      (10 : ℝ) ^ (-(lensTwo.point_source_magnitude.getD 0 0 - 27) / 2.5) ∧
    0 < counts_of 19 27 ∧ counts_of 21 27 < counts_of 19 27) := by
  exact C1_magnitude_to_amplitude dataId lensTwo
    27 19 21 0 (by simp [lensTwo]) (by norm_num)

/-! ## General list-indexing helper lemmas -/

theorem getD_map_of_lt {α β : Type} (f : α → β) (l : List α) (j : ℕ)
    (h : j < l.length) (d : β) (d' : α) :
    (l.map f).getD j d = f (l.getD j d') := by
  rw [List.getD_eq_getElem?_getD, List.getElem?_map,
    List.getElem?_eq_getElem h, List.getD_eq_getElem?_getD,
    List.getElem?_eq_getElem h]
  rfl

theorem getD_range_map {α : Type} (f : ℕ → α) (n i : ℕ) (h : i < n) (d : α) :
    ((List.range n).map f).getD i d = f i := by
  rw [getD_map_of_lt f _ i (by simpa using h) d 0,
    List.getD_eq_getElem?_getD, List.getElem?_range h]
  rfl

/-! ## Helper lemmas about the two rendering paths of `point_source_image` -/

theorem image_amplitude_of_getD (mags : List ℝ) (zp : ℝ) (i : ℕ)
    (hi : i < mags.length) :
    (image_amplitude_of mags zp).getD i 0 = counts_of (mags.getD i 0) zp :=
  getD_map_of_lt _ _ _ hi _ _

theorem npTranspose_map_entry (iot : ℝ → List ℝ) (time : List ℝ) (n i j : ℕ)
    (hobs : ∀ t, (iot t).length = n) (hi : i < n) (hj : j < time.length) :
    ((npTranspose (time.map iot)).getD i []).getD j 0 =
      (iot (time.getD j 0)).getD i 0 := by
  rcases time with _ | ⟨t₀, ts⟩
  · simp at hj
  · have hlen : ((List.map iot (t₀ :: ts)).headD []).length = n := by
      simp [hobs]
    rw [npTranspose, hlen, getD_range_map _ n i hi, List.map_map,
      getD_map_of_lt _ _ j (by simpa using hj) 0 0]
    rfl

theorem variable_amp_entry (mags : List ℝ) (f : ℝ → ℝ) (iot : ℝ → List ℝ)
    (time : List ℝ) (zp : ℝ) (n i j : ℕ)
    (hmag : mags.length = n) (hobs : ∀ t, (iot t).length = n)
    (hi : i < n) (hj : j < time.length) :
    ((variable_amp_of (variable_mag_of mags f (npTranspose (time.map iot))
        time.length) zp).getD i []).getD j 0 =
      counts_of (mags.getD i 0 + f ((iot (time.getD j 0)).getD i 0)) zp := by
  have hi' : i < mags.length := hmag ▸ hi
  rw [variable_amp_of, variable_mag_of,
    getD_map_of_lt _ _ i (by simpa using hi') [] [],
    getD_range_map _ _ i hi', List.map_map,
    getD_range_map _ _ j hj]
  simp only [Function.comp_apply]
  rw [npTranspose_map_entry iot time n i j hobs hi hj]

theorem point_source_image_var_eq {Stamp K : Type} [Inhabited K]
    (data : DataClass) (lens : LensClass) (zp dp : ℝ) (np : ℕ)
    (kernels : List K)
    (render : PixelGridSpec → ℕ → PSFSpec K → List ℝ → List ℝ → List ℝ → Stamp)
    (f : ℝ → ℝ) (v : VarSpec) (t : Table)
    (ht : point_source_image_properties data lens zp = .ok t)
    (hmodel : v.variability_model = "sinusoidal") :
    point_source_image data lens zp dp np kernels render f (some v) =
      .ok (.nested ((List.range kernels.length).map (fun i =>
        (List.range (normalize_time v.time).length).map (fun j =>
          render (gridOf (data.map_pix2coord 0 0) dp np) 1
            ((kernels.map (fun k => (⟨"PIXEL", k⟩ : PSFSpec K))).getD i default)
            [lens.image_positions_ra.getD i 0]
            [lens.image_positions_dec.getD i 0]
            [((variable_amp_of (variable_mag_of lens.point_source_magnitude f
                (npTranspose ((normalize_time v.time).map
                  lens.image_observer_times))
                (normalize_time v.time).length) zp).getD i []).getD j 0])))) := by
  simp [point_source_image, ht, hmodel, psProps]

theorem point_source_image_flat_eq {Stamp K : Type} [Inhabited K]
    (data : DataClass) (lens : LensClass) (zp dp : ℝ) (np : ℕ)
    (kernels : List K)
    (render : PixelGridSpec → ℕ → PSFSpec K → List ℝ → List ℝ → List ℝ → Stamp)
    (f : ℝ → ℝ) (t : Table)
    (ht : point_source_image_properties data lens zp = .ok t) :
    point_source_image data lens zp dp np kernels render f none =
      .ok (.flat ((List.range kernels.length).map (fun i =>
        render (gridOf (data.map_pix2coord 0 0) dp np) 1
          ((kernels.map (fun k => (⟨"PIXEL", k⟩ : PSFSpec K))).getD i default)
          [lens.image_positions_ra.getD i 0]
          [lens.image_positions_dec.getD i 0]
          [(image_amplitude_of lens.point_source_magnitude zp).getD i 0]))) := by
  simp [point_source_image, ht, psProps]

theorem nested_stamp_eq {Stamp K : Type} [Inhabited K]
    (data : DataClass) (lens : LensClass) (zp dp : ℝ) (np : ℕ)
    (kernels : List K)
    (render : PixelGridSpec → ℕ → PSFSpec K → List ℝ → List ℝ → List ℝ → Stamp)
    (f : ℝ → ℝ) (v : VarSpec) (t : Table) (n i j : ℕ) (dS : Stamp)
    (ht : point_source_image_properties data lens zp = .ok t)
    (hmodel : v.variability_model = "sinusoidal")
    (hk : kernels.length = n)
    (hmag : lens.point_source_magnitude.length = n)
    (hobs : ∀ s, (lens.image_observer_times s).length = n)
    (hi : i < n) (hj : j < (normalize_time v.time).length) :
    ((PSOut.nestedOf (point_source_image data lens zp dp np kernels render f
        (some v))).getD i []).getD j dS =
      render (gridOf (data.map_pix2coord 0 0) dp np) 1
        ⟨"PIXEL", kernels.getD i default⟩
        [lens.image_positions_ra.getD i 0]
        [lens.image_positions_dec.getD i 0]
        [counts_of (lens.point_source_magnitude.getD i 0 +
          f ((lens.image_observer_times
            ((normalize_time v.time).getD j 0)).getD i 0)) zp] := by
  have hi' : i < kernels.length := hk ▸ hi
  rw [point_source_image_var_eq data lens zp dp np kernels render f v t ht
    hmodel, PSOut.nestedOf, getD_range_map _ _ i hi',
    getD_range_map _ _ j hj,
    getD_map_of_lt _ _ i (by simpa using hi') default default,
    variable_amp_entry lens.point_source_magnitude f
      lens.image_observer_times (normalize_time v.time) zp n i j hmag hobs
      hi hj]

theorem flat_stamp_eq {Stamp K : Type} [Inhabited K]
    (data : DataClass) (lens : LensClass) (zp dp : ℝ) (np : ℕ)
    (kernels : List K)
    (render : PixelGridSpec → ℕ → PSFSpec K → List ℝ → List ℝ → List ℝ → Stamp)
    (f : ℝ → ℝ) (t : Table) (n i : ℕ) (dS : Stamp)
    (ht : point_source_image_properties data lens zp = .ok t)
    (hk : kernels.length = n) (hi : i < n) :
    (PSOut.flatOf (point_source_image data lens zp dp np kernels render f
        none)).getD i dS =
      render (gridOf (data.map_pix2coord 0 0) dp np) 1
        ⟨"PIXEL", kernels.getD i default⟩
        [lens.image_positions_ra.getD i 0]
        [lens.image_positions_dec.getD i 0]
        [(image_amplitude_of lens.point_source_magnitude zp).getD i 0] := by
  have hi' : i < kernels.length := hk ▸ hi
  rw [point_source_image_flat_eq data lens zp dp np kernels render f t ht,
    PSOut.flatOf, getD_range_map _ _ i hi',
    getD_map_of_lt _ _ i (by simpa using hi') default default]

/-! ## Second claim: the variability path's nested output -/

/-- **C2.** A `point_source_image` call with a sinusoidal variability spec
returns a nested sequence, outer index by image and inner index by epoch;
the stamp at `(i, j)` is rendered with amplitude
`10 ^ (-((magnitude i + f (T i j)) - zp) / 2.5)`, where `f` is the
variability function and `T i j` is the observer-frame time of image `i`
at epoch `j`, read off the transpose of the lens descriptor's
`image_observer_times` evaluated at each (day-normalized) epoch. -/
theorem C2_variability_nested_rendering {Stamp K : Type} [Inhabited K]
    (data : DataClass) (lens : LensClass) (zp dp : ℝ) (np : ℕ)
    (kernels : List K)
    (render : PixelGridSpec → ℕ → PSFSpec K → List ℝ → List ℝ → List ℝ → Stamp)
    (f : ℝ → ℝ) (v : VarSpec) (n i j : ℕ) (dS : Stamp)
    (hmodel : v.variability_model = "sinusoidal")
    (hok : ∃ t, point_source_image_properties data lens zp = .ok t)
    (hk : kernels.length = n)
    (hmag : lens.point_source_magnitude.length = n)
    (hobs : ∀ s, (lens.image_observer_times s).length = n)
    (hi : i < n) (hj : j < (normalize_time v.time).length) :
    (∃ L, point_source_image data lens zp dp np kernels render f (some v) =
        .ok (.nested L)) ∧
    (PSOut.nestedOf (point_source_image data lens zp dp np kernels render f
        (some v))).length = kernels.length ∧
    ((PSOut.nestedOf (point_source_image data lens zp dp np kernels render f
        (some v))).getD i []).length = (normalize_time v.time).length ∧
    ((PSOut.nestedOf (point_source_image data lens zp dp np kernels render f
        (some v))).getD i []).getD j dS =
      render (gridOf (data.map_pix2coord 0 0) dp np) 1
        ⟨"PIXEL", kernels.getD i default⟩
        [lens.image_positions_ra.getD i 0]
        [lens.image_positions_dec.getD i 0]
        [(10 : ℝ) ^ (-((lens.point_source_magnitude.getD i 0 +
          f ((lens.image_observer_times
            ((normalize_time v.time).getD j 0)).getD i 0)) - zp) / 2.5)] := by
  obtain ⟨t, ht⟩ := hok
  have hveq := point_source_image_var_eq data lens zp dp np kernels render f
    v t ht hmodel
  refine ⟨⟨_, hveq⟩, ?_, ?_, ?_⟩
  · rw [hveq]
    simp [PSOut.nestedOf]
  · rw [hveq, PSOut.nestedOf, getD_range_map _ _ i (hk ▸ hi)]
    simp
  · exact nested_stamp_eq data lens zp dp np kernels render f v t n i j dS
      ht hmodel hk hmag hobs hi hj

theorem C2_variability_nested_rendering_witness :
    (∃ L, point_source_image dataId lensTwo 27 1 10 [(), ()]
        (fun _ _ _ _ _ _ => (0 : ℕ)) (fun s => s)
        (some ⟨⟨[0, 1], TimeUnit.day⟩, "sinusoidal"⟩) = .ok (.nested L)) ∧
    (PSOut.nestedOf (point_source_image dataId lensTwo 27 1 10
        [(), ()] (fun _ _ _ _ _ _ => (0 : ℕ)) (fun s => s)
        (some ⟨⟨[0, 1], TimeUnit.day⟩, "sinusoidal"⟩))).length =
      ([(), ()] : List Unit).length ∧
    ((PSOut.nestedOf (point_source_image dataId lensTwo 27 1 10
        [(), ()] (fun _ _ _ _ _ _ => (0 : ℕ)) (fun s => s)
        (some ⟨⟨[0, 1], TimeUnit.day⟩, "sinusoidal"⟩))).getD 1 []).length =
      (normalize_time ⟨[0, 1], TimeUnit.day⟩).length ∧
    ((PSOut.nestedOf (point_source_image dataId lensTwo 27 1 10
        [(), ()] (fun _ _ _ _ _ _ => (0 : ℕ)) (fun s => s)
        (some ⟨⟨[0, 1], TimeUnit.day⟩, "sinusoidal"⟩))).getD 1 []).getD 1 0 =
      0 := by
  exact C2_variability_nested_rendering dataId lensTwo 27 1 10 [(), ()]
    (fun _ _ _ _ _ _ => (0 : ℕ)) (fun s => s) ⟨⟨[0, 1], TimeUnit.day⟩, "sinusoidal"⟩
    2 1 1 0 rfl ⟨_, rfl⟩ rfl rfl (fun s => rfl) (by norm_num)
    (by simp [normalize_time])

/-! ## Seventh claim: zero delay and zero variability reduce to the
non-variability path -/

/-- **C7.** If every image's observer-frame time equals the source-frame
time (zero time delay) and the variability function returns zero at every
time, then the amplitude used by the variability path at `(i, j)` equals
the `image_amplitude` entry of `point_source_image_properties` for image
`i`, and the rendered stamp at `(i, j)` equals the non-variability stamp
for image `i`. -/
theorem C7_zero_delay_zero_variability_reduces {Stamp K : Type} [Inhabited K]
    (data : DataClass) (lens : LensClass) (zp dp : ℝ) (np : ℕ)
    (kernels : List K)
    (render : PixelGridSpec → ℕ → PSFSpec K → List ℝ → List ℝ → List ℝ → Stamp)
    (f : ℝ → ℝ) (v : VarSpec) (n i j : ℕ) (dS : Stamp)
    (hdelay : ∀ s, lens.image_observer_times s = List.replicate n s)
    (hf : ∀ s, f s = 0)
    (hmodel : v.variability_model = "sinusoidal")
    (hok : ∃ t, point_source_image_properties data lens zp = .ok t)
    (hk : kernels.length = n)
    (hmag : lens.point_source_magnitude.length = n)
    (hi : i < n) (hj : j < (normalize_time v.time).length) :
    ((variable_amp_of (variable_mag_of lens.point_source_magnitude f
        (npTranspose ((normalize_time v.time).map lens.image_observer_times))
        (normalize_time v.time).length) zp).getD i []).getD j 0 =
      (psProps data lens zp).image_amplitude.getD i 0 ∧
    ((PSOut.nestedOf (point_source_image data lens zp dp np kernels render f
        (some v))).getD i []).getD j dS =
      (PSOut.flatOf (point_source_image data lens zp dp np kernels render f
        none)).getD i dS := by
  obtain ⟨t, ht⟩ := hok
  have hobs : ∀ s, (lens.image_observer_times s).length = n := by
    intro s
    rw [hdelay s]
    simp
  have hampflat : (psProps data lens zp).image_amplitude.getD i 0 =
      counts_of (lens.point_source_magnitude.getD i 0) zp := by
    have hfield : (psProps data lens zp).image_amplitude =
        image_amplitude_of lens.point_source_magnitude zp := rfl
    rw [hfield, image_amplitude_of_getD _ _ _ (hmag ▸ hi)]
  constructor
  · rw [variable_amp_entry lens.point_source_magnitude f
      lens.image_observer_times (normalize_time v.time) zp n i j hmag hobs
      hi hj, hf, add_zero, hampflat]
  · rw [nested_stamp_eq data lens zp dp np kernels render f v t n i j dS ht
      hmodel hk hmag hobs hi hj,
      flat_stamp_eq data lens zp dp np kernels render f t n i dS ht hk hi,
      hf, add_zero,
      image_amplitude_of_getD lens.point_source_magnitude zp i (hmag ▸ hi)]

theorem C7_zero_delay_zero_variability_reduces_witness :
    (((variable_amp_of (variable_mag_of lensTwo.point_source_magnitude
        (fun _ => 0)
        (npTranspose ((normalize_time ⟨[0, 1], TimeUnit.day⟩).map
          lensTwo.image_observer_times))
        (normalize_time ⟨[0, 1], TimeUnit.day⟩).length) 27).getD 0 []).getD
          1 0 =
      (psProps dataId lensTwo 27).image_amplitude.getD 0 0) ∧
    ((PSOut.nestedOf (point_source_image dataId lensTwo 27 1 10
        [(), ()] (fun _ _ _ _ _ _ => (0 : ℕ)) (fun _ => 0)
        (some ⟨⟨[0, 1], TimeUnit.day⟩, "sinusoidal"⟩))).getD 0 []).getD 1 0 =
      (PSOut.flatOf (point_source_image dataId lensTwo 27 1 10
        [(), ()] (fun _ _ _ _ _ _ => (0 : ℕ)) (fun _ => 0) none)).getD 0 0 := by
  exact C7_zero_delay_zero_variability_reduces dataId lensTwo 27 1 10
    [(), ()] (fun _ _ _ _ _ _ => (0 : ℕ)) (fun _ => 0)
    ⟨⟨[0, 1], TimeUnit.day⟩, "sinusoidal"⟩ 2 0 1 0 (fun s => rfl)
    (fun s => rfl) rfl ⟨_, rfl⟩ rfl rfl (by norm_num)
    (by simp [normalize_time])

/-! ## Third claim: rejection of unsupported variability models -/

/-- **C3.** A call to `point_source_image` with a variability spec whose
model name is not `"sinusoidal"` (and whose earlier properties step
succeeds) returns the unsupported-model error: no image output and no
partial result. -/
theorem C3_unsupported_model_rejected {Stamp K : Type} [Inhabited K]
    (data : DataClass) (lens : LensClass) (zp dp : ℝ) (np : ℕ)
    (kernels : List K)
    (render : PixelGridSpec → ℕ → PSFSpec K → List ℝ → List ℝ → List ℝ → Stamp)
    (f : ℝ → ℝ) (v : VarSpec)
    (hok : ∃ t, point_source_image_properties data lens zp = .ok t)
    (hm : v.variability_model ≠ "sinusoidal") :
    point_source_image data lens zp dp np kernels render f (some v) =
      .error unsupportedModelMsg := by
  obtain ⟨t, ht⟩ := hok
  simp [point_source_image, ht, hm]

theorem C3_unsupported_model_rejected_witness :
    point_source_image dataId lensTwo 27 1 10 [(), ()]
      (fun _ _ _ _ _ _ => (0 : ℕ)) (fun _ => 0)
      (some ⟨⟨[0], TimeUnit.day⟩, "linear"⟩) =
      .error unsupportedModelMsg := by
  exact C3_unsupported_model_rejected dataId lensTwo 27 1 10 [(), ()]
    (fun _ _ _ _ _ _ => (0 : ℕ)) (fun _ => 0) ⟨⟨[0], TimeUnit.day⟩, "linear"⟩
    ⟨_, rfl⟩ (by decide)

/-! ## Fourth claim: the time-unit normalization branch -/

/-- **C4 counterexample.** The claim states that a sequence tagged in
seconds is silently left unconverted; in the code the `else` branch of
lines 275-278 converts every non-day unit to days, so a seconds-tagged
sequence does not survive unchanged. -/
theorem C4_seconds_not_left_unconverted :
    normalize_time ⟨[86400], TimeUnit.second⟩ ≠ [86400] := by
  simp only [normalize_time, TimeQuantity.toDay, TimeUnit.toDayFactor]
  rw [if_neg (by simp), if_neg (by simp)]
  norm_num

/-- **C4 (amended).** In `point_source_image`'s variability path, every
observation-time sequence is converted to days: the `else` branch of the
day check converts any non-day unit (minutes, seconds, ...) via the units
library, and the separate minute check merely repeats that conversion. No
unit is left unconverted. -/
theorem C4_all_units_converted_to_day (q : TimeQuantity) :
    normalize_time q = q.value.map (fun v => v * q.unit.toDayFactor) := by
  obtain ⟨v, u⟩ := q
  cases u <;>
    simp [normalize_time, TimeQuantity.toDay, TimeUnit.toDayFactor]

/-! ## Fifth and sixth claims: the shape of the properties table -/

theorem psProps_column_lengths (data : DataClass) (lens : LensClass)
    (zp : ℝ) (n : ℕ)
    (hra : lens.image_positions_ra.length = n)
    (hdec : lens.image_positions_dec.length = n)
    (hmag : lens.point_source_magnitude.length = n) :
    (psPropsColumns (psProps data lens zp)).map List.length =
      [2, n, n, n, n, n, 2] := by
  simp [psPropsColumns, psProps, image_amplitude_of, hra, hdec, hmag]

theorem properties_ok_of_two (data : DataClass) (lens : LensClass) (zp : ℝ)
    (hra : lens.image_positions_ra.length = 2)
    (hdec : lens.image_positions_dec.length = 2)
    (hmag : lens.point_source_magnitude.length = 2) :
    point_source_image_properties data lens zp =
      .ok ⟨psPropsNames, psPropsColumns (psProps data lens zp)⟩ := by
  have hcond : (psPropsColumns (psProps data lens zp)).all
      (fun c => c.length =
        ((psPropsColumns (psProps data lens zp)).headD []).length) = true := by
    simp [psPropsColumns, psProps, image_amplitude_of, hra, hdec, hmag]
  unfold point_source_image_properties mkTable
  rw [if_pos hcond]

theorem properties_error_of_ne_two (data : DataClass) (lens : LensClass)
    (zp : ℝ) (n : ℕ)
    (hra : lens.image_positions_ra.length = n)
    (hdec : lens.image_positions_dec.length = n)
    (hmag : lens.point_source_magnitude.length = n) (hne : n ≠ 2) :
    point_source_image_properties data lens zp =
      .error "Inconsistent data column lengths" := by
  have hcond : (psPropsColumns (psProps data lens zp)).all
      (fun c => c.length =
        ((psPropsColumns (psProps data lens zp)).headD []).length) = false := by
    simp [psPropsColumns, psProps, image_amplitude_of, hra, hdec, hmag, hne]
  unfold point_source_image_properties mkTable
  rw [if_neg (by rw [hcond]; exact Bool.false_ne_true)]

/-- **C5 counterexample.** The claim states that the assembled table has
exactly one row spanning all images; on a concrete two-image system the
code produces a table with two rows. -/
theorem C5_table_is_not_one_row :
    (point_source_image_properties dataId lensTwo 27).map Table.nrows =
      .ok 2 ∧ (2 : ℕ) ≠ 1 := by
  constructor
  · rfl
  · decide

/-- **C5 (amended).** `point_source_image_properties` hands the assembled
sequences to the table constructor as columns, not as the field values of
a single row: for a system with two lensed images the construction
succeeds and produces a table with two rows (one per column element), the
columns being the deflector pixel coordinate, the per-image pixel and sky
coordinates, amplitudes and magnitudes, and the sky coordinate of pixel
(0,0). -/
theorem C5_two_image_table_has_two_rows (data : DataClass)
    (lens : LensClass) (zp : ℝ)
    (hra : lens.image_positions_ra.length = 2)
    (hdec : lens.image_positions_dec.length = 2)
    (hmag : lens.point_source_magnitude.length = 2) :
    point_source_image_properties data lens zp =
      .ok ⟨psPropsNames, psPropsColumns (psProps data lens zp)⟩ ∧
    Table.nrows ⟨psPropsNames, psPropsColumns (psProps data lens zp)⟩ = 2 :=
  ⟨properties_ok_of_two data lens zp hra hdec hmag, rfl⟩

theorem C5_two_image_table_has_two_rows_witness :
    point_source_image_properties dataId lensTwo 27 =
      .ok ⟨psPropsNames, psPropsColumns (psProps dataId lensTwo 27)⟩ ∧
    Table.nrows ⟨psPropsNames, psPropsColumns (psProps dataId lensTwo 27)⟩ =
      2 := by
  exact C5_two_image_table_has_two_rows dataId lensTwo 27 rfl rfl rfl

/-- **C6.** In the table built by `point_source_image_properties`, the
deflector-pixel and pixel-origin-coordinate columns always have length 2
while each per-image column has length `n`; the construction succeeds
(with a 2-row table) iff `n = 2`, and fails with the
inconsistent-column-lengths error for every other `n`. -/
theorem C6_table_construction_requires_two_images (data : DataClass)
    (lens : LensClass) (zp : ℝ) (n : ℕ)
    (hra : lens.image_positions_ra.length = n)
    (hdec : lens.image_positions_dec.length = n)
    (hmag : lens.point_source_magnitude.length = n) :
    ((psPropsColumns (psProps data lens zp)).map List.length =
      [2, n, n, n, n, n, 2]) ∧
    ((∃ t, point_source_image_properties data lens zp = .ok t ∧
        t.nrows = 2) ↔ n = 2) ∧
    (n ≠ 2 → point_source_image_properties data lens zp =
      .error "Inconsistent data column lengths") := by
  refine ⟨psProps_column_lengths data lens zp n hra hdec hmag, ?_, ?_⟩
  · constructor
    · rintro ⟨t, ht, -⟩
      by_contra hne
      rw [properties_error_of_ne_two data lens zp n hra hdec hmag hne] at ht
      exact absurd ht (by simp)
    · intro h2
      subst h2
      exact ⟨_, properties_ok_of_two data lens zp hra hdec hmag, rfl⟩
  · exact properties_error_of_ne_two data lens zp n hra hdec hmag

theorem C6_table_construction_requires_two_images_witness :
    (((psPropsColumns (psProps dataId lensThree 27)).map List.length =
      [2, 3, 3, 3, 3, 3, 2]) ∧
    ((∃ t, point_source_image_properties dataId lensThree 27 = .ok t ∧
        t.nrows = 2) ↔ 3 = 2) ∧
    ((3 : ℕ) ≠ 2 → point_source_image_properties dataId lensThree 27 =
      .error "Inconsistent data column lengths")) := by
  exact C6_table_construction_requires_two_images dataId lensThree 27 3
    rfl rfl rfl

/-! ## Eighth claim: the two RGB entry points agree -/

/-- **C8.** For a three-element band list, zero point and pixel scale, the
composite returned by `sharp_rgb_image` equals the composite returned by
`rgb_image_from_image_list` applied to the three sharp renders of the red,
green and blue bands (in that order, deflector light included) at stretch
0.5: both entry points delegate to the same perceptual-stretch combiner
with no other transformation. -/
theorem C8_rgb_entry_points_agree {Img RGB : Type} [Inhabited Img]
    (image_model : String → KwargsBand → SharpNumerics → RenderRequest → Img)
    (make_lupton_rgb : Img → Img → Img → ℝ → RGB)
    (rgb_band_list : List String) (r g b : String) (zp dp : ℝ)
    (hb : rgb_band_list = [r, g, b]) :
    sharp_rgb_image image_model make_lupton_rgb rgb_band_list zp dp =
      rgb_image_from_image_list make_lupton_rgb
        [sharp_image image_model r zp dp true,
         sharp_image image_model g zp dp true,
         sharp_image image_model b zp dp true] 0.5 := by
  subst hb
  rfl

theorem C8_rgb_entry_points_agree_witness :
    sharp_rgb_image (fun _ _ _ _ => (0 : ℕ)) (fun a b c _ => a + b + c)
      ["r", "g", "i"] 27 1 =
      rgb_image_from_image_list (fun a b c _ => a + b + c)
        [sharp_image (fun _ _ _ _ => (0 : ℕ)) "r" 27 1 true,
         sharp_image (fun _ _ _ _ => (0 : ℕ)) "g" 27 1 true,
         sharp_image (fun _ _ _ _ => (0 : ℕ)) "i" 27 1 true] 0.5 := by
  exact C8_rgb_entry_points_agree (fun _ _ _ _ => (0 : ℕ)) (fun a b c _ => a + b + c)
    ["r", "g", "i"] "r" "g" "i" 27 1 rfl

/-! ## Ninth claim: `simulate_image`'s fixed numerics and noise branch -/

/-- **C9.** Every `simulate_image` call renders with the fixed numerics
configuration (extended-light supersampling factor 3, point-source
supersampling factor 1); with `add_noise = false` the returned array is
the renderer's output unchanged, and with `add_noise = true` it is that
output plus a noise realization drawn for it. -/
theorem C9_simulate_image_fixed_numerics {Img : Type} [Add Img]
    (image_model : KwargsNumericsFull → Img) (noise_for_model : Img → Img) :
    simulate_image image_model noise_for_model false = image_model ⟨1, 3⟩ ∧
    simulate_image image_model noise_for_model true =
      image_model ⟨1, 3⟩ + noise_for_model (image_model ⟨1, 3⟩) ∧
    (⟨1, 3⟩ : KwargsNumericsFull).point_source_supersampling_factor = 1 ∧
    (⟨1, 3⟩ : KwargsNumericsFull).supersampling_factor = 3 :=
  ⟨rfl, rfl, rfl, rfl⟩

/-! ## Tenth claim: `sharp_image`'s fixed render request -/

/-- **C10.** Every `sharp_image` call requests an unconvolved render with
supersampling factor 1; source light is always added, point-source light
is always excluded, deflector light is included iff `with_deflector`; and
the band configuration always carries background noise 0, PSF type
`"NONE"` and exposure time 1. -/
theorem C10_sharp_image_fixed_request {Img : Type}
    (image_model : String → KwargsBand → SharpNumerics → RenderRequest → Img)
    (band : String) (zp dp : ℝ) (wd : Bool) :
    sharp_image image_model band zp dp wd =
      image_model band (sharp_kwargs_band dp zp) ⟨1⟩ ⟨true, true, wd, false⟩ ∧
    (sharp_kwargs_band dp zp).pixel_scale = dp ∧
    (sharp_kwargs_band dp zp).magnitude_zero_point = zp ∧
    (sharp_kwargs_band dp zp).background_noise = 0 ∧
    (sharp_kwargs_band dp zp).psf_type = "NONE" ∧
    (sharp_kwargs_band dp zp).exposure_time = 1 :=
  ⟨rfl, rfl, rfl, rfl, rfl, rfl⟩

end ImageSimulation
